import Mathlib

/-!
Verification of the configuration-resolution core of the infrastructure
orchestrator (src/main.py).  Python values flowing through the resolver and
the parameter builder are dynamically typed; they are embedded as the
inductive type `PyVal` with Python truthiness.  Fallible Python code
(attribute errors on non-mapping sections, the index error on an empty
camel-cased name) is embedded with `Option`: `none` models an uncaught
exception.
-/

namespace Orchestrator

/-- Embedding of the Python values that flow through the orchestrator:
None, booleans, integers, strings and (insertion-ordered) dictionaries. -/
inductive PyVal where
  | vNone : PyVal
  | vBool : Bool → PyVal
  | vInt : Int → PyVal
  | vStr : String → PyVal
  | vDict : List (String × PyVal) → PyVal

/-- Python truthiness: None, False, 0, the empty string and the empty dict
are falsy; everything else is truthy. -/
def pyTruthy : PyVal → Bool
  | .vNone => false
  | .vBool b => b
  | .vInt n => n != 0
  | .vStr s => s != ""
  | .vDict d => !d.isEmpty

/-- Python `d.get(k, dflt)` on a dictionary represented as an association
list (first binding wins, as Python dict keys are unique). -/
def dictGetD (d : List (String × PyVal)) (k : String) (dflt : PyVal) : PyVal :=
  (List.lookup k d).getD dflt

/-- Python `v.get(k, dflt)` on an arbitrary value: an attribute error
(`none`) when `v` is not a dictionary. -/
def pyGetD : PyVal → String → PyVal → Option PyVal
  | .vDict d, k, dflt => some (dictGetD d k dflt)
  | _, _, _ => none

/-- Python `v.get(k)` (default `None`). -/
def pyGet (v : PyVal) (k : String) : Option PyVal :=
  pyGetD v k .vNone

/-- An optional string as a Python value (argparse yields None or a string). -/
def strOrNone : Option String → PyVal
  | none => .vNone
  | some s => .vStr s

/-- Python `env_vars.get(k)` on the environment mapping. -/
def envGet (env_vars : List (String × String)) (k : String) : PyVal :=
  strOrNone (List.lookup k env_vars)

/-- Python `a or b` (first truthy operand, else the second verbatim). -/
def pyOr (a b : PyVal) : PyVal :=
  if pyTruthy a then a else b

/-- Python `a or e` where evaluating `e` may raise: short-circuits, so the
possible exception in `e` is avoided when `a` is truthy. -/
def pyOrOpt (a : PyVal) (b : Option PyVal) : Option PyVal :=
  if pyTruthy a then some a else b

/-- Python `d[k] = v` on an association-list dictionary: replace in place
when the key is present, append otherwise. -/
def dictSet {α : Type} : List (String × α) → String → α → List (String × α)
  | [], k, v => [(k, v)]
  | p :: rest, k, v => if p.1 == k then (k, v) :: rest else p :: dictSet rest k v

/-- Python `d.update(es)`: set every binding of `es` into `d`, in order. -/
def dictUpdate {α : Type} (d es : List (String × α)) : List (String × α) :=
  es.foldl (fun acc e => dictSet acc e.1 e.2) d

/-- The parsed command-line arguments (argparse.Namespace) of src/main.py:
store_true flags, optional strings, and the repeatable `--set` values. -/
structure Args where
  dry_run : Bool
  what_if : Bool
  apply : Bool
  destroy : Bool
  resources : Bool
  profile : Option String
  env : Option String
  location : Option String
  subscription : Option String
  set : List String

/-- The OrchestratorConfig dataclass of src/main.py.  Fields keep their
Python names; since Python does not enforce the annotations, every
configuration field is a `PyVal`. -/
structure OrchestratorConfig where
  subscription_id : PyVal
  location : PyVal
  env_name : PyVal
  profile : PyVal
  resources : PyVal
  dry_run : PyVal
  what_if : PyVal
  apply : PyVal
  destroy : PyVal
  extra_params : List (String × String)

/-- The four built-in default resources installed by
`OrchestratorConfig.__post_init__` when `resources` is falsy. -/
def default_resources : PyVal :=
  .vDict [("container_registry", .vDict [("enabled", .vBool true)]),
          ("storage_account", .vDict [("enabled", .vBool true)]),
          ("ai_services", .vDict [("enabled", .vBool true)]),
          ("search_service", .vDict [("enabled", .vBool true)])]

/-- Constructing an OrchestratorConfig runs `__post_init__`: when the
supplied `resources` value is falsy (`if not self.resources`), the built-in
default set is installed. -/
def mkOrchestratorConfig (subscription_id location env_name profile resources
    dry_run what_if apply destroy : PyVal)
    (extra_params : List (String × String)) : OrchestratorConfig :=
  { subscription_id := subscription_id
    location := location
    env_name := env_name
    profile := profile
    resources := if pyTruthy resources then resources else default_resources
    dry_run := dry_run
    what_if := what_if
    apply := apply
    destroy := destroy
    extra_params := extra_params }

/-- Python `s.split(sep, 1)` on a character list: `none` when the separator
does not occur, otherwise the text before the first occurrence and the text
after it. -/
def split_first (sep : Char) : List Char → Option (List Char × List Char)
  | [] => none
  | c :: rest =>
    if c == sep then some ([], rest)
    else (split_first sep rest).map (fun p => (c :: p.1, p.2))

/-- The `--set KEY=VALUE` loop of `resolve_config`: entries without `=` are
ignored; later duplicates overwrite earlier ones. -/
def parse_set_params (set : List String) : List (String × String) :=
  set.foldl (fun acc param =>
    match split_first '=' param.toList with
    | some kv => dictSet acc (String.mk kv.1) (String.mk kv.2)
    | none => acc) []

/-- `resolve_config` of src/main.py, as a function of the parsed arguments,
the loaded environment mapping and the parsed structured-file mapping.
Each scalar field is a Python `or` chain CLI value / env value / structured
value-with-default; `none` models the attribute error raised when a
structured-file section that must be read is not a mapping. -/
def resolve_config (args : Args) (env_vars : List (String × String))
    (yaml_config : List (String × PyVal)) : Option OrchestratorConfig :=
  let azure_config := dictGetD yaml_config "azure" (.vDict [])
  let env_config := dictGetD yaml_config "environment" (.vDict [])
  let resources_config := dictGetD yaml_config "resources" (.vDict [])
  let deployment_config := dictGetD yaml_config "deployment" (.vDict [])
  match
    pyOrOpt (strOrNone args.subscription)
      (pyOrOpt (envGet env_vars "AZURE_SUBSCRIPTION_ID")
        (pyGet azure_config "subscription_id")),
    pyOrOpt (strOrNone args.location)
      (pyOrOpt (envGet env_vars "AZURE_LOCATION")
        (pyGetD azure_config "location" (.vStr "eastus"))),
    pyOrOpt (strOrNone args.env)
      (pyOrOpt (envGet env_vars "AZURE_ENV_NAME")
        (pyGetD env_config "name" (.vStr "dev"))),
    pyOrOpt (strOrNone args.profile)
      (pyOrOpt (envGet env_vars "PROFILE")
        (pyGetD env_config "profile" (.vStr "default"))),
    pyOrOpt (.vBool args.dry_run) (pyGetD deployment_config "dry_run" (.vBool false)),
    pyOrOpt (.vBool args.what_if) (pyGetD deployment_config "what_if" (.vBool false)) with
  | some subscription_id, some location, some env_name, some profile,
    some dry_run, some what_if =>
    some (mkOrchestratorConfig subscription_id location env_name profile
      (if args.resources then resources_config else resources_config)
      dry_run what_if (.vBool args.apply) (.vBool args.destroy)
      (parse_set_params args.set))
  | _, _, _, _, _, _ => none

/-- Python `s.split(sep)` on a character list (always at least one piece;
an empty string yields one empty piece, as in Python). -/
def split_on_char (sep : Char) : List Char → List (List Char)
  | [] => [[]]
  | c :: rest =>
    let r := split_on_char sep rest
    if c == sep then [] :: r
    else match r with
      | w :: ws => (c :: w) :: ws
      | [] => [[c]]

/-- Python `word.capitalize()`: first character uppercased, the remaining
characters lowercased. -/
def pyCapitalize : List Char → List Char
  | [] => []
  | c :: rest => c.toUpper :: rest.map Char.toLower

/-- The camel-casing of `build_infra_params`: split the resource name on
underscores, capitalize each word, join, and lowercase the first character
of the joined result.  `param_name[0]` raises an IndexError (`none`) when
the joined result is empty, which happens exactly when the name consists
solely of underscores. -/
def camelName (name : String) : Option String :=
  match ((split_on_char '_' name.toList).map pyCapitalize).flatten with
  | [] => none
  | c :: rest => some (String.mk (c.toLower :: rest))

/-- Python `v.items()`: an attribute error (`none`) when `v` is not a
dictionary. -/
def pyItems : PyVal → Option (List (String × PyVal))
  | .vDict d => some d
  | _ => none

/-- The first part of `build_infra_params`: `location` and
`environmentName` always, `subscriptionId` only when set (truthy). -/
def base_params (config : OrchestratorConfig) : List (String × PyVal) :=
  let params := [("location", config.location), ("environmentName", config.env_name)]
  if pyTruthy config.subscription_id then
    dictSet params "subscriptionId" config.subscription_id
  else params

/-- The resource loop of `build_infra_params`: for each entry that is a
mapping and enabled (default true), the camel-cased name is computed (the
possible IndexError propagates), then a `...Sku` parameter is emitted when
the mapping has a `sku` key. -/
def build_resource_params :
    List (String × PyVal) → List (String × PyVal) → Option (List (String × PyVal))
  | params, [] => some params
  | params, (name, rc) :: rest =>
    match rc with
    | .vDict rd =>
      if pyTruthy (dictGetD rd "enabled" (.vBool true)) then
        match camelName name with
        | none => none
        | some pn =>
          match List.lookup "sku" rd with
          | some sku => build_resource_params (dictSet params (pn ++ "Sku") sku) rest
          | none => build_resource_params params rest
      else build_resource_params params rest
    | _ => build_resource_params params rest

/-- The string-valued extra parameters as Python dict entries. -/
def strProject (extras : List (String × String)) : List (String × PyVal) :=
  extras.map (fun p => (p.1, PyVal.vStr p.2))

/-- `build_infra_params` of src/main.py: base parameters, then the resource
loop, then `params.update(config.extra_params)` last. -/
def build_infra_params (config : OrchestratorConfig) :
    Option (List (String × PyVal)) :=
  match pyItems config.resources with
  | none => none
  | some items =>
    match build_resource_params (base_params config) items with
    | none => none
    | some params => some (dictUpdate params (strProject config.extra_params))

/-- The observable result of a subprocess invocation (subprocess.CompletedProcess). -/
structure CompletedProcess where
  returncode : Int
  stdout : String
  stderr : String

/-- What the operating system does with one command: either it completes
with an exit status and output streams, or the binary is not on the search
path (FileNotFoundError). -/
inductive ProcOutcome where
  | completed : Int → String → String → ProcOutcome
  | fileNotFound : ProcOutcome

/-- The external world seen by the tool inspector: a fixed outcome per
command line. -/
def World : Type := List String → ProcOutcome

/-- `run` of src/main.py with `capture=True, check=False` (as every caller
in the probing paths uses it): a missing binary degrades to returncode 127
with a diagnostic on stderr instead of raising. -/
def run (world : World) (command : List String) : CompletedProcess :=
  match world command with
  | .completed rc out err => { returncode := rc, stdout := out, stderr := err }
  | .fileNotFound =>
    { returncode := 127, stdout := "",
      stderr := "Command not found: " ++ command.headD "" }

/-- `require_tools` of src/main.py: probe each tool (bicep via
`az bicep version`, every other tool via `tool --version`) and record
availability as a zero exit status. -/
def require_tools (world : World) (tools : Option (List String)) :
    List (String × Bool) :=
  let tools := tools.getD ["az", "azd", "bicep"]
  tools.foldl (fun results tool =>
    if tool == "bicep" then
      dictSet results tool ((run world ["az", "bicep", "version"]).returncode == 0)
    else
      dictSet results tool ((run world [tool, "--version"]).returncode == 0)) []

/-- Python whitespace for `str.strip()`. -/
def pyIsSpace (c : Char) : Bool :=
  c == ' ' || c == '\t' || c == '\n' || c == '\r' || c == '\x0b' || c == '\x0c'

/-- Python `s.strip()`. -/
def pyStrip (s : String) : String :=
  String.mk (((s.toList.dropWhile pyIsSpace).reverse.dropWhile pyIsSpace).reverse)

/-- The text before the first newline of a string (its first line). -/
def first_line (s : String) : String :=
  String.mk ((split_on_char '\n' s.toList).headD [])

/-- `get_tool_version` of src/main.py: on a zero exit status, the first
line of the stripped standard output, or `none` when the stripped output
is empty; `none` on a non-zero exit status. -/
def get_tool_version (world : World) (tool : String) : Option String :=
  let result := if tool == "bicep" then run world ["az", "bicep", "version"]
                else run world [tool, "--version"]
  if result.returncode == 0 then
    let output := pyStrip result.stdout
    if output == "" then none
    else some (first_line output)
  else none

/-- `check_tools` of src/main.py, reduced to its returned value: every
required tool (az, azd, bicep) of the probed five must be available. -/
def check_tools (world : World) : Bool :=
  let tools := ["az", "azd", "bicep", "docker", "git"]
  let results := require_tools world (some tools)
  let required_tools := ["az", "azd", "bicep"]
  tools.all (fun tool =>
    !(required_tools.contains tool) || (List.lookup tool results).getD false)

/-- The filesystem facts `validate_bicep_files` inspects: whether the
`infra` directory exists and which `.bicep` files it holds. -/
structure Fs where
  infra_dir_exists : Bool
  bicep_files : List String

/-- `bicep_validate` of src/main.py: false when the file is missing,
otherwise the exit status of the external build command decides. -/
def bicep_validate (world : World) (file_exists : Bool) (f : String) : Bool :=
  if !file_exists then false
  else (run world ["az", "bicep", "build", "--file", f, "--stdout"]).returncode == 0

/-- `validate_bicep_files` of src/main.py: false when the directory or any
definition file is missing, otherwise every file must validate (files found
by globbing exist). -/
def validate_bicep_files (fs : Fs) (world : World) : Bool :=
  if !fs.infra_dir_exists then false
  else if fs.bicep_files.isEmpty then false
  else fs.bicep_files.all (fun f => bicep_validate world true f)

/-- The five action paths of `main`. -/
inductive MainAction where
  | dryRunA | whatIfA | applyA | destroyA | reportOnly
  deriving DecidableEq

/-- The action selection of `main` (src/main.py lines 596 onward): the
sequential `if config.dry_run / config.what_if / config.apply /
config.destroy` returns, each ending the run, so the first truthy flag in
that order wins and exactly one path is taken. -/
def dispatch (config : OrchestratorConfig) : MainAction :=
  if pyTruthy config.dry_run then .dryRunA
  else if pyTruthy config.what_if then .whatIfA
  else if pyTruthy config.apply then .applyA
  else if pyTruthy config.destroy then .destroyA
  else .reportOnly

/-- `main` of src/main.py after argument parsing: resolve the
configuration, print it (which computes `build_infra_params`), then take
the selected action path; every completed path returns 0, the tool and
file checks being advisory.  `none` models an uncaught exception, which
ends the Python process with a non-zero status. -/
def main (args : Args) (env_vars : List (String × String))
    (yaml_config : List (String × PyVal)) (world : World) (fs : Fs) :
    Option Nat :=
  match resolve_config args env_vars yaml_config with
  | none => none
  | some config =>
    match build_infra_params config with
    | none => none
    | some _ =>
      match dispatch config with
      | .dryRunA =>
        let _ := check_tools world
        let _ := validate_bicep_files fs world
        some 0
      | .whatIfA =>
        let _ := check_tools world
        let _ := validate_bicep_files fs world
        some 0
      | .applyA => some 0
      | .destroyA => some 0
      | .reportOnly => some 0

/-- An optional string that is present and non-empty, as the precedence
contract treats CLI and environment values. -/
def nonEmptyStr : Option String → Option String
  | some s => if s == "" then none else some s
  | none => none

/-- The per-field scalar resolution rule as the code implements it: first
non-empty value among the CLI argument and the environment mapping value;
otherwise the structured-file value verbatim whenever its key is present
(even when that value is empty); the hard-coded default only when the key
is absent. -/
def spec_scalar_rule (cli ev : Option String) (fileVal : Option PyVal)
    (dflt : PyVal) : PyVal :=
  match nonEmptyStr cli with
  | some c => .vStr c
  | none =>
    match nonEmptyStr ev with
    | some e => .vStr e
    | none => fileVal.getD dflt

/-- The per-entry parameter contribution in the words of the spec: an
entry that is a structured mapping, is enabled (default true), and has a
`sku` key sets the camel-cased name suffixed `Sku` to that value; every
other entry contributes nothing. -/
def spec_resource_step (params : List (String × PyVal))
    (entry : String × PyVal) : List (String × PyVal) :=
  match entry.2 with
  | .vDict rd =>
    if pyTruthy (dictGetD rd "enabled" (.vBool true)) then
      match List.lookup "sku" rd, camelName entry.1 with
      | some sku, some pn => dictSet params (pn ++ "Sku") sku
      | _, _ => params
    else params
  | _ => params

/-- A resource entry on which the camel-casing cannot raise: whenever the
entry is an enabled mapping, its name camel-cases to a non-empty string. -/
def entry_safe (e : String × PyVal) : Bool :=
  match e.2 with
  | .vDict rd =>
    !(pyTruthy (dictGetD rd "enabled" (.vBool true))) || (camelName e.1).isSome
  | _ => true

/-- First-some of two options (used to state association-list lookups over
updates). -/
def optOr {α : Type} : Option α → Option α → Option α
  | some x, _ => some x
  | none, b => b

/-- A command line with no CLI-supplied values and no flags. -/
def noArgs : Args :=
  { dry_run := false, what_if := false, apply := false, destroy := false,
    resources := false, profile := none, env := none, location := none,
    subscription := none, set := [] }

/-- A world on which no binary exists. -/
def trivWorld : World := fun _ => .fileNotFound

/-- A filesystem without an infra directory. -/
def trivFs : Fs := { infra_dir_exists := false, bicep_files := [] }

/-- A structured file whose resources block holds an enabled entry whose
name is the empty string. -/
def badYaml : List (String × PyVal) :=
  [("resources", PyVal.vDict [("", PyVal.vDict [("enabled", PyVal.vBool true)])])]

/-- A world on which `az --version` succeeds with a leading newline on its
standard output. -/
def w7 : World := fun cmd =>
  if cmd = ["az", "--version"] then ProcOutcome.completed 0 "\nv2.0\n" ""
  else ProcOutcome.fileNotFound

/-- Arguments supplying only a CLI location. -/
def argsLoc : Args := { noArgs with location := some "westus2" }

/-- An environment mapping supplying AZURE_LOCATION. -/
def envLoc : List (String × String) := [("AZURE_LOCATION", "centralus")]

/-- A structured file supplying azure.location. -/
def yamlLoc : List (String × PyVal) :=
  [("azure", PyVal.vDict [("location", PyVal.vStr "northeurope")])]

/-- A structured file whose resources block is present and non-empty. -/
def yamlWeb : List (String × PyVal) :=
  [("resources", PyVal.vDict [("web_app", PyVal.vDict [("enabled", PyVal.vBool true)])])]

/-- A structured file enabling deployment.dry_run. -/
def yamlDry : List (String × PyVal) :=
  [("deployment", PyVal.vDict [("dry_run", PyVal.vBool true)])]

/-- A configuration holding one enabled resource with a sku and one
disabled resource with a sku. -/
def cfgSales : OrchestratorConfig :=
  mkOrchestratorConfig .vNone (.vStr "eastus") (.vStr "dev") (.vStr "default")
    (.vDict [("sales_catalog", .vDict [("enabled", .vBool true), ("sku", .vStr "Standard_S1")]),
             ("archive", .vDict [("enabled", .vBool false), ("sku", .vStr "S2")])])
    (.vBool false) (.vBool false) (.vBool false) (.vBool false) []

/-- A configuration whose extra parameters override its own location. -/
def cfgOverride : OrchestratorConfig :=
  mkOrchestratorConfig .vNone (.vStr "eastus") (.vStr "dev") (.vStr "default")
    (.vDict []) (.vBool false) (.vBool false) (.vBool false) (.vBool false)
    [("location", "override-region")]

/-- A configuration with one enabled resource entry whose name is empty. -/
def cfgEmptyName : OrchestratorConfig :=
  mkOrchestratorConfig .vNone (.vStr "eastus") (.vStr "dev") (.vStr "default")
    (.vDict [("", .vDict [("enabled", .vBool true)])])
    (.vBool false) (.vBool false) (.vBool false) (.vBool false) []

/-- A configuration with all four action flags truthy. -/
def cfgAllFlags : OrchestratorConfig :=
  mkOrchestratorConfig .vNone (.vStr "eastus") (.vStr "dev") (.vStr "default")
    (.vDict []) (.vBool true) (.vBool true) (.vBool true) (.vBool true) []

/-- A configuration with what-if, apply and destroy truthy but dry-run off. -/
def cfgWhatIf : OrchestratorConfig :=
  mkOrchestratorConfig .vNone (.vStr "eastus") (.vStr "dev") (.vStr "default")
    (.vDict []) (.vBool false) (.vBool true) (.vBool true) (.vBool true) []

/-- Lookup over a dictionary after setting one key. -/
theorem lookup_dictSet {α : Type} (d : List (String × α)) (k k' : String) (v : α) :
    List.lookup k' (dictSet d k v) = if k' == k then some v else List.lookup k' d := by
  induction d with
  | nil => by_cases h : k' == k <;> simp [dictSet, List.lookup, h]
  | cons p rest ih =>
    by_cases h : p.1 == k
    · have hk : p.1 = k := by simpa using h
      subst hk
      simp only [dictSet, h, if_true]
      by_cases h2 : k' == p.1
      · simp [List.lookup, h2]
      · simp [List.lookup, h2]
    · simp only [dictSet, h, if_false]
      by_cases h2 : k' == p.1
      · have hk2 : k' = p.1 := by simpa using h2
        have h3 : (k' == k) = false := by
          subst hk2
          simpa using h
        simp [List.lookup, h2, h3]
      · simp [List.lookup, h2, ih]

/-- Lookup distributes over list append as a first-some choice. -/
theorem lookup_append {α : Type} (l₁ l₂ : List (String × α)) (k : String) :
    List.lookup k (l₁ ++ l₂) = optOr (List.lookup k l₁) (List.lookup k l₂) := by
  induction l₁ with
  | nil => simp [optOr, List.lookup]
  | cons p rest ih =>
    by_cases h : k == p.1
    · simp [List.lookup, h, optOr]
    · simp [List.lookup, h, ih]

/-- Lookup over a dictionary after a whole update: the last binding of the
update wins, else the original dictionary answers. -/
theorem lookup_dictUpdate {α : Type} (es d : List (String × α)) (k : String) :
    List.lookup k (dictUpdate d es) =
      optOr (List.lookup k es.reverse) (List.lookup k d) := by
  induction es generalizing d with
  | nil => simp [dictUpdate, optOr]
  | cons e rest ih =>
    have step : dictUpdate d (e :: rest) = dictUpdate (dictSet d e.1 e.2) rest := rfl
    rw [step, ih, List.reverse_cons, lookup_append, lookup_dictSet]
    cases hr : List.lookup k rest.reverse with
    | some v => simp [optOr]
    | none =>
      by_cases h : k == e.1
      · simp [optOr, List.lookup, h]
      · simp [optOr, List.lookup, h]

/-- Lookup through the string-to-PyVal projection of the extra parameters. -/
theorem lookup_strProject (l : List (String × String)) (k : String) :
    List.lookup k (strProject l) = (List.lookup k l).map PyVal.vStr := by
  induction l with
  | nil => simp [strProject, List.lookup]
  | cons p rest ih =>
    by_cases h : k == p.1
    · simp [strProject, List.lookup, h]
    · simp only [strProject, List.map_cons, List.lookup, h]
      exact ih

/-- A Python `or` whose fallible operand evaluated without raising. -/
theorem pyOrOpt_some (a b : PyVal) : pyOrOpt a (some b) = some (pyOr a b) := by
  by_cases h : pyTruthy a <;> simp [pyOrOpt, pyOr, h]

/-- Python `v.get` on a dictionary value never raises. -/
theorem pyGetD_dict (d : List (String × PyVal)) (k : String) (dflt : PyVal) :
    pyGetD (.vDict d) k dflt = some (dictGetD d k dflt) := rfl

/-- The three-source `or` chain of one scalar field equals the per-field
resolution rule. -/
theorem chain_eq (cli ev : Option String) (fv : Option PyVal) (dflt : PyVal) :
    pyOrOpt (strOrNone cli) (pyOrOpt (strOrNone ev) (some (fv.getD dflt))) =
      some (spec_scalar_rule cli ev fv dflt) := by
  cases cli with
  | some s =>
    by_cases hs : s == ""
    · have hs' : s = "" := by simpa using hs
      subst hs'
      cases ev with
      | some t =>
        by_cases ht : t == ""
        · have ht' : t = "" := by simpa using ht
          subst ht'
          simp [pyOrOpt, strOrNone, pyTruthy, spec_scalar_rule, nonEmptyStr]
        · have ht0 : (t == "") = false := by simpa using ht
          simp [pyOrOpt, strOrNone, pyTruthy, spec_scalar_rule, nonEmptyStr, ht0]
          intro h
          exact absurd h (by simpa using ht)
      | none => simp [pyOrOpt, strOrNone, pyTruthy, spec_scalar_rule, nonEmptyStr]
    · have hs0 : (s == "") = false := by simpa using hs
      simp [pyOrOpt, strOrNone, pyTruthy, spec_scalar_rule, nonEmptyStr, hs0]
      intro h
      exact absurd h (by simpa using hs)
  | none =>
    cases ev with
    | some t =>
      by_cases ht : t == ""
      · have ht' : t = "" := by simpa using ht
        subst ht'
        simp [pyOrOpt, strOrNone, pyTruthy, spec_scalar_rule, nonEmptyStr]
      · have ht0 : (t == "") = false := by simpa using ht
        simp [pyOrOpt, strOrNone, pyTruthy, spec_scalar_rule, nonEmptyStr, ht0]
        intro h
        exact absurd h (by simpa using ht)
    | none => simp [pyOrOpt, strOrNone, pyTruthy, spec_scalar_rule, nonEmptyStr]

/-- Resolution, characterized field by field, whenever the three structured
sections the resolver reads scalars from are mappings. -/
theorem resolve_config_sections (args : Args) (env_vars : List (String × String))
    (yaml_config : List (String × PyVal)) (ad ed dd : List (String × PyVal))
    (ha : dictGetD yaml_config "azure" (.vDict []) = .vDict ad)
    (he : dictGetD yaml_config "environment" (.vDict []) = .vDict ed)
    (hd : dictGetD yaml_config "deployment" (.vDict []) = .vDict dd) :
    resolve_config args env_vars yaml_config =
      some (mkOrchestratorConfig
        (spec_scalar_rule args.subscription (List.lookup "AZURE_SUBSCRIPTION_ID" env_vars)
          (List.lookup "subscription_id" ad) .vNone)
        (spec_scalar_rule args.location (List.lookup "AZURE_LOCATION" env_vars)
          (List.lookup "location" ad) (.vStr "eastus"))
        (spec_scalar_rule args.env (List.lookup "AZURE_ENV_NAME" env_vars)
          (List.lookup "name" ed) (.vStr "dev"))
        (spec_scalar_rule args.profile (List.lookup "PROFILE" env_vars)
          (List.lookup "profile" ed) (.vStr "default"))
        (dictGetD yaml_config "resources" (.vDict []))
        (pyOr (.vBool args.dry_run) (dictGetD dd "dry_run" (.vBool false)))
        (pyOr (.vBool args.what_if) (dictGetD dd "what_if" (.vBool false)))
        (.vBool args.apply) (.vBool args.destroy)
        (parse_set_params args.set)) := by
  simp only [resolve_config]
  rw [ha, he, hd]
  simp only [pyGet, pyGetD_dict, envGet, dictGetD]
  rw [chain_eq, chain_eq, chain_eq, chain_eq, pyOrOpt_some, pyOrOpt_some]
  simp only [ite_self]

/-- Truthiness of a Python `or` whose left operand is a boolean. -/
theorem pyTruthy_pyOr_bool (b : Bool) (v : PyVal) :
    pyTruthy (pyOr (.vBool b) v) = (b || pyTruthy v) := by
  cases b <;> simp [pyOr, pyTruthy]

/-- The resource loop agrees with the per-entry contribution rule on every
entry list whose enabled mapping entries camel-case without raising. -/
theorem build_resource_params_spec (items : List (String × PyVal))
    (params : List (String × PyVal)) (hs : items.all entry_safe = true) :
    build_resource_params params items =
      some (items.foldl spec_resource_step params) := by
  induction items generalizing params with
  | nil => rfl
  | cons e rest ih =>
    obtain ⟨name, rc⟩ := e
    have hss : entry_safe (name, rc) = true ∧ rest.all entry_safe = true := by
      simpa [List.all_cons] using hs
    cases rc with
    | vDict rd =>
      by_cases hen : pyTruthy (dictGetD rd "enabled" (.vBool true)) = true
      · have hc : (camelName name).isSome = true := by
          have h1 := hss.1
          simpa [entry_safe, hen] using h1
        obtain ⟨pn, hpn⟩ := Option.isSome_iff_exists.mp hc
        cases hsku : List.lookup "sku" rd with
        | some sku =>
          simp only [build_resource_params, hen, if_true, hpn, hsku]
          rw [ih _ hss.2]
          simp [spec_resource_step, hen, hsku, hpn, List.foldl_cons]
        | none =>
          simp only [build_resource_params, hen, if_true, hpn, hsku]
          rw [ih _ hss.2]
          simp [spec_resource_step, hen, hsku, hpn, List.foldl_cons]
      · have hen0 : pyTruthy (dictGetD rd "enabled" (.vBool true)) = false := by
          simpa using hen
        simp only [build_resource_params, hen0, Bool.false_eq_true, if_false]
        rw [ih _ hss.2]
        simp [spec_resource_step, hen0, List.foldl_cons]
    | vNone =>
      rw [show build_resource_params params ((name, .vNone) :: rest) =
        build_resource_params params rest from rfl, ih _ hss.2]
      simp [spec_resource_step, List.foldl_cons]
    | vBool b =>
      rw [show build_resource_params params ((name, .vBool b) :: rest) =
        build_resource_params params rest from rfl, ih _ hss.2]
      simp [spec_resource_step, List.foldl_cons]
    | vInt n =>
      rw [show build_resource_params params ((name, .vInt n) :: rest) =
        build_resource_params params rest from rfl, ih _ hss.2]
      simp [spec_resource_step, List.foldl_cons]
    | vStr s =>
      rw [show build_resource_params params ((name, .vStr s) :: rest) =
        build_resource_params params rest from rfl, ih _ hss.2]
      simp [spec_resource_step, List.foldl_cons]

/-- Lookup in the availability fold of `require_tools`: a probed tool maps
to the exit status of its probe command being zero. -/
theorem lookup_probe_foldl (world : World) (tools : List String)
    (acc : List (String × Bool)) (tool : String) :
    List.lookup tool (tools.foldl (fun results t =>
      if t == "bicep" then
        dictSet results t ((run world ["az", "bicep", "version"]).returncode == 0)
      else
        dictSet results t ((run world [t, "--version"]).returncode == 0)) acc) =
    if tool ∈ tools then
      some ((run world (if tool == "bicep" then ["az", "bicep", "version"]
        else [tool, "--version"])).returncode == 0)
    else List.lookup tool acc := by
  induction tools generalizing acc with
  | nil => simp
  | cons t ts ih =>
    simp only [List.foldl_cons]
    rw [ih]
    by_cases hmem : tool ∈ ts
    · simp [hmem, List.mem_cons]
    · by_cases heq : tool = t
      · subst heq
        by_cases hb : tool == "bicep"
        · simp [hmem, hb, lookup_dictSet, List.mem_cons]
        · have hb0 : (tool == "bicep") = false := by simpa using hb
          simp [hmem, hb0, lookup_dictSet, List.mem_cons]
      · have hne : (tool == t) = false := by simpa using heq
        by_cases hb : t == "bicep"
        · simp [hmem, hb, heq, lookup_dictSet, hne, List.mem_cons]
        · have hb0 : (t == "bicep") = false := by simpa using hb
          simp [hmem, hb0, heq, lookup_dictSet, hne, List.mem_cons]

/-- Claim C1 (amended): for each scalar field (subscriptionId, location,
environmentName, profile), resolution takes the first non-empty value
among the CLI argument and the per-field environment mapping value;
otherwise the structured-file nested value verbatim whenever its key is
present — even when that value is empty, so an empty structured-file value
does not fall through to the hard-coded default, which is used only when
the key is absent.  Each field equation mentions only that field's own
sources, so sibling fields never interact; the last two conjuncts record
that a non-empty CLI value wins regardless of every other source and that
an empty-string CLI value is treated as not provided. -/
theorem scalar_precedence_resolution (args : Args)
    (env_vars : List (String × String)) (yaml_config : List (String × PyVal))
    (ad ed dd : List (String × PyVal))
    (ha : dictGetD yaml_config "azure" (.vDict []) = .vDict ad)
    (he : dictGetD yaml_config "environment" (.vDict []) = .vDict ed)
    (hd : dictGetD yaml_config "deployment" (.vDict []) = .vDict dd) :
    (∃ cfg, resolve_config args env_vars yaml_config = some cfg ∧
      cfg.subscription_id = spec_scalar_rule args.subscription
        (List.lookup "AZURE_SUBSCRIPTION_ID" env_vars)
        (List.lookup "subscription_id" ad) .vNone ∧
      cfg.location = spec_scalar_rule args.location
        (List.lookup "AZURE_LOCATION" env_vars)
        (List.lookup "location" ad) (.vStr "eastus") ∧
      cfg.env_name = spec_scalar_rule args.env
        (List.lookup "AZURE_ENV_NAME" env_vars)
        (List.lookup "name" ed) (.vStr "dev") ∧
      cfg.profile = spec_scalar_rule args.profile
        (List.lookup "PROFILE" env_vars)
        (List.lookup "profile" ed) (.vStr "default")) ∧
    (∀ (s : String) (ev : Option String) (fv : Option PyVal) (dflt : PyVal),
      s ≠ "" → spec_scalar_rule (some s) ev fv dflt = .vStr s) ∧
    (∀ (ev : Option String) (fv : Option PyVal) (dflt : PyVal),
      spec_scalar_rule (some "") ev fv dflt = spec_scalar_rule none ev fv dflt) := by
  refine ⟨⟨_, resolve_config_sections args env_vars yaml_config ad ed dd ha he hd,
    rfl, rfl, rfl, rfl⟩, ?_, ?_⟩
  · intro s ev fv dflt hne
    have h0 : (s == "") = false := by simpa using hne
    simp [spec_scalar_rule, nonEmptyStr, h0]
  · intro ev fv dflt
    simp [spec_scalar_rule, nonEmptyStr]

/-- Claim C1 as frozen is refuted here: with no CLI value and no
environment value and the structured file holding azure.location as the
empty string, the first non-empty source is the hard-coded default
"eastus", yet the resolver returns the empty string verbatim. -/
theorem scalar_precedence_counterexample :
    Option.map OrchestratorConfig.location
      (resolve_config noArgs []
        [("azure", PyVal.vDict [("location", PyVal.vStr "")])]) =
      some (PyVal.vStr "") ∧ PyVal.vStr "" ≠ PyVal.vStr "eastus" := by
  refine ⟨rfl, ?_⟩
  intro h
  injection h with h1
  exact absurd h1 (by decide)

/-- Claim C1 witness: CLI westus2, environment centralus and structured
file northeurope resolve to the CLI value westus2. -/
theorem scalar_precedence_witness :
    Option.map OrchestratorConfig.location (resolve_config argsLoc envLoc yamlLoc) =
      some (PyVal.vStr "westus2") := by
  obtain ⟨⟨cfg, hc, _, hl, _, _⟩, _, _⟩ :=
    scalar_precedence_resolution argsLoc envLoc yamlLoc
      [("location", PyVal.vStr "northeurope")] [] [] rfl rfl rfl
  rw [hc, Option.map_some', hl]
  rfl

/-- Claim C2 (amended): the resolved resources field equals the structured
file's resources block verbatim whenever that block is present with a
truthy (non-empty) value, and the built-in four-entry default set is
installed exactly when the block is absent, empty or otherwise falsy — the
post-init default applies to a present-but-empty block too. -/
theorem resources_block_resolution (args : Args)
    (env_vars : List (String × String)) (yaml_config : List (String × PyVal))
    (cfg : OrchestratorConfig)
    (h : resolve_config args env_vars yaml_config = some cfg) :
    cfg.resources =
      (if pyTruthy (dictGetD yaml_config "resources" (.vDict [])) then
        dictGetD yaml_config "resources" (.vDict [])
      else
        .vDict [("container_registry", .vDict [("enabled", .vBool true)]),
                ("storage_account", .vDict [("enabled", .vBool true)]),
                ("ai_services", .vDict [("enabled", .vBool true)]),
                ("search_service", .vDict [("enabled", .vBool true)])]) := by
  simp only [resolve_config] at h
  split at h
  · injection h with h2
    subst h2
    simp [mkOrchestratorConfig, default_resources, ite_self]
  · exact absurd h (by simp)

/-- Claim C2 as frozen is refuted here: the structured file supplies a
resources section (an empty mapping), yet the resolved resources field is
the built-in default set rather than that block verbatim. -/
theorem resources_block_counterexample :
    Option.map OrchestratorConfig.resources
      (resolve_config noArgs [] [("resources", PyVal.vDict [])]) =
      some default_resources ∧ default_resources ≠ PyVal.vDict [] := by
  refine ⟨rfl, ?_⟩
  intro h
  simp [default_resources] at h

/-- Claim C2 witness: a present non-empty resources block is taken
verbatim. -/
theorem resources_block_witness :
    Option.map OrchestratorConfig.resources (resolve_config noArgs [] yamlWeb) =
      some (PyVal.vDict [("web_app", PyVal.vDict [("enabled", PyVal.vBool true)])]) := by
  have h := resources_block_resolution noArgs [] yamlWeb
    (mkOrchestratorConfig PyVal.vNone (PyVal.vStr "eastus") (PyVal.vStr "dev")
      (PyVal.vStr "default")
      (PyVal.vDict [("web_app", PyVal.vDict [("enabled", PyVal.vBool true)])])
      (PyVal.vBool false) (PyVal.vBool false) (PyVal.vBool false)
      (PyVal.vBool false) []) rfl
  rw [show resolve_config noArgs [] yamlWeb =
    some (mkOrchestratorConfig PyVal.vNone (PyVal.vStr "eastus") (PyVal.vStr "dev")
      (PyVal.vStr "default")
      (PyVal.vDict [("web_app", PyVal.vDict [("enabled", PyVal.vBool true)])])
      (PyVal.vBool false) (PyVal.vBool false) (PyVal.vBool false)
      (PyVal.vBool false) []) from rfl, Option.map_some', h]
  rfl

/-- Claim C8 (confirmed): with no CLI value, no environment mapping value
and no structured-file value supplied for any scalar field, the resolved
configuration has location eastus, environmentName dev, profile default
and subscriptionId unset (the deployment section, which holds no scalar
field, is any mapping). -/
theorem default_fallback (args : Args) (env_vars : List (String × String))
    (yaml_config : List (String × PyVal)) (dd : List (String × PyVal))
    (h1 : args.subscription = none) (h2 : args.location = none)
    (h3 : args.env = none) (h4 : args.profile = none)
    (e1 : List.lookup "AZURE_SUBSCRIPTION_ID" env_vars = none)
    (e2 : List.lookup "AZURE_LOCATION" env_vars = none)
    (e3 : List.lookup "AZURE_ENV_NAME" env_vars = none)
    (e4 : List.lookup "PROFILE" env_vars = none)
    (y1 : List.lookup "azure" yaml_config = none)
    (y2 : List.lookup "environment" yaml_config = none)
    (yd : dictGetD yaml_config "deployment" (.vDict []) = .vDict dd) :
    ∃ cfg, resolve_config args env_vars yaml_config = some cfg ∧
      cfg.location = .vStr "eastus" ∧ cfg.env_name = .vStr "dev" ∧
      cfg.profile = .vStr "default" ∧ cfg.subscription_id = .vNone := by
  have ha : dictGetD yaml_config "azure" (.vDict []) = .vDict [] := by
    simp [dictGetD, y1]
  have he : dictGetD yaml_config "environment" (.vDict []) = .vDict [] := by
    simp [dictGetD, y2]
  refine ⟨_, resolve_config_sections args env_vars yaml_config [] [] dd ha he yd,
    ?_, ?_, ?_, ?_⟩
  · simp [mkOrchestratorConfig, h2, e2, spec_scalar_rule, nonEmptyStr, List.lookup]
  · simp [mkOrchestratorConfig, h3, e3, spec_scalar_rule, nonEmptyStr, List.lookup]
  · simp [mkOrchestratorConfig, h4, e4, spec_scalar_rule, nonEmptyStr, List.lookup]
  · simp [mkOrchestratorConfig, h1, e1, spec_scalar_rule, nonEmptyStr, List.lookup]

/-- Claim C8 witness: the all-empty input resolves to the documented
defaults. -/
theorem default_fallback_witness :
    ∃ cfg, resolve_config noArgs [] [] = some cfg ∧
      cfg.location = .vStr "eastus" ∧ cfg.env_name = .vStr "dev" ∧
      cfg.profile = .vStr "default" ∧ cfg.subscription_id = .vNone :=
  default_fallback noArgs [] [] [] rfl rfl rfl rfl rfl rfl rfl rfl rfl rfl rfl

/-- Claim C9 (confirmed): the boolean resources flag is display-only — two
invocations whose inputs differ only in that flag resolve to structurally
equal configurations, the resources field in particular being taken from
the structured file identically. -/
theorem resources_flag_display_only (args : Args)
    (env_vars : List (String × String)) (yaml_config : List (String × PyVal))
    (b1 b2 : Bool) :
    resolve_config { args with resources := b1 } env_vars yaml_config =
      resolve_config { args with resources := b2 } env_vars yaml_config := by
  cases b1 <;> cases b2 <;> rfl

/-- Claim C10 (confirmed): the resolved apply and destroy flags equal the
CLI flags exactly — no environment or structured-file input reaches them —
while dryRun and whatIf resolve to the disjunction of the CLI flag and the
truthiness of the structured file's deployment.dry_run / deployment.what_if
value. -/
theorem action_flag_sources (args : Args) (env_vars : List (String × String))
    (yaml_config : List (String × PyVal)) (ad ed dd : List (String × PyVal))
    (ha : dictGetD yaml_config "azure" (.vDict []) = .vDict ad)
    (he : dictGetD yaml_config "environment" (.vDict []) = .vDict ed)
    (hd : dictGetD yaml_config "deployment" (.vDict []) = .vDict dd) :
    ∃ cfg, resolve_config args env_vars yaml_config = some cfg ∧
      cfg.apply = .vBool args.apply ∧
      cfg.destroy = .vBool args.destroy ∧
      pyTruthy cfg.apply = args.apply ∧
      pyTruthy cfg.destroy = args.destroy ∧
      cfg.dry_run = pyOr (.vBool args.dry_run) (dictGetD dd "dry_run" (.vBool false)) ∧
      cfg.what_if = pyOr (.vBool args.what_if) (dictGetD dd "what_if" (.vBool false)) ∧
      pyTruthy cfg.dry_run =
        (args.dry_run || pyTruthy (dictGetD dd "dry_run" (.vBool false))) ∧
      pyTruthy cfg.what_if =
        (args.what_if || pyTruthy (dictGetD dd "what_if" (.vBool false))) :=
  ⟨_, resolve_config_sections args env_vars yaml_config ad ed dd ha he hd,
    rfl, rfl, rfl, rfl, rfl, rfl, pyTruthy_pyOr_bool _ _, pyTruthy_pyOr_bool _ _⟩

/-- Claim C10 witness: the structured file alone turns dryRun on while
apply stays off. -/
theorem action_flag_sources_witness :
    Option.map (fun cfg => (pyTruthy cfg.dry_run, pyTruthy cfg.apply))
      (resolve_config noArgs [] yamlDry) = some (true, false) := by
  obtain ⟨cfg, hc, _, _, h3, _, _, _, h7, _⟩ :=
    action_flag_sources noArgs [] yamlDry [] [] [("dry_run", PyVal.vBool true)]
      rfl rfl rfl
  rw [hc, Option.map_some']
  rw [show (pyTruthy cfg.dry_run, pyTruthy cfg.apply) = (true, false) from by
    rw [h7, h3]; rfl]

/-- Claim C3 (amended): the parameter builder behaves per entry exactly as
the per-entry contribution rule — an entry that is an enabled structured
mapping (enabled defaulting to true) containing a sku key emits the
camel-cased name suffixed Sku holding that sku value, while disabled
entries, entries without sku and malformed non-mapping entries contribute
no parameter — provided every enabled mapping entry's name camel-cases to
a non-empty string; an enabled mapping entry whose name consists solely of
underscores (or is empty) instead makes the builder raise an IndexError. -/
theorem camel_sku_parameters (config : OrchestratorConfig)
    (items : List (String × PyVal))
    (hi : pyItems config.resources = some items)
    (hs : items.all entry_safe = true) :
    build_infra_params config =
      some (dictUpdate (items.foldl spec_resource_step (base_params config))
        (strProject config.extra_params)) := by
  have h2 := build_resource_params_spec items (base_params config) hs
  simp only [build_infra_params, hi, h2]

/-- Claim C3 as frozen is refuted here: a structured mapping entry that is
enabled and has no sku key is claimed to never cause a failure, yet with
the empty string as its resource name the builder raises (an IndexError on
the camel-cased name); the entry is reachable from the resolver. -/
theorem camel_sku_counterexample :
    build_infra_params cfgEmptyName = none ∧
    Option.map OrchestratorConfig.resources (resolve_config noArgs [] badYaml) =
      some cfgEmptyName.resources :=
  ⟨rfl, rfl⟩

/-- Claim C3 witness: an enabled sales_catalog entry with a sku emits
salesCatalogSku and a disabled entry with a sku contributes nothing. -/
theorem camel_sku_witness :
    build_infra_params cfgSales =
      some [("location", PyVal.vStr "eastus"), ("environmentName", PyVal.vStr "dev"),
            ("salesCatalogSku", PyVal.vStr "Standard_S1")] := by
  have h := camel_sku_parameters cfgSales
    [("sales_catalog", PyVal.vDict [("enabled", PyVal.vBool true),
       ("sku", PyVal.vStr "Standard_S1")]),
     ("archive", PyVal.vDict [("enabled", PyVal.vBool false),
       ("sku", PyVal.vStr "S2")])] rfl rfl
  exact h.trans rfl

/-- Claim C4 (confirmed): the extra parameters are merged last, so every
key they bind maps in the builder output to the extra-parameter value
(the last binding for that key), even when a same-named key was already
emitted from the configuration's own fields. -/
theorem extra_params_win (config : OrchestratorConfig)
    (params : List (String × PyVal)) (k v : String)
    (hb : build_infra_params config = some params)
    (hk : List.lookup k config.extra_params.reverse = some v) :
    List.lookup k params = some (PyVal.vStr v) := by
  cases hi : pyItems config.resources with
  | none =>
    simp only [build_infra_params, hi] at hb
    exact Option.noConfusion hb
  | some items =>
    cases hl : build_resource_params (base_params config) items with
    | none =>
      simp only [build_infra_params, hi, hl] at hb
      exact Option.noConfusion hb
    | some p =>
      simp only [build_infra_params, hi, hl, Option.some.injEq] at hb
      subst hb
      rw [lookup_dictUpdate]
      have hrev : (strProject config.extra_params).reverse =
          strProject config.extra_params.reverse := by
        simp [strProject]
      rw [hrev, lookup_strProject, hk]
      rfl

/-- Claim C4 witness: an extra parameter named location overrides the
location emitted from the configuration's own field. -/
theorem extra_params_win_witness :
    List.lookup "location"
      [("location", PyVal.vStr "override-region"),
       ("environmentName", PyVal.vStr "dev")] =
      some (PyVal.vStr "override-region") :=
  extra_params_win cfgOverride
    [("location", PyVal.vStr "override-region"),
     ("environmentName", PyVal.vStr "dev")]
    "location" "override-region" rfl rfl

/-- Claim C5 (confirmed): action selection is priority-ordered and
first-match-wins over the resolved flags — dryRun, then whatIf, then
apply, then destroy, then report-only — and being a function of the
configuration it takes exactly one path even when several flags are
truthy at once. -/
theorem dispatch_priority (config : OrchestratorConfig) :
    (pyTruthy config.dry_run = true → dispatch config = .dryRunA) ∧
    (pyTruthy config.dry_run = false → pyTruthy config.what_if = true →
      dispatch config = .whatIfA) ∧
    (pyTruthy config.dry_run = false → pyTruthy config.what_if = false →
      pyTruthy config.apply = true → dispatch config = .applyA) ∧
    (pyTruthy config.dry_run = false → pyTruthy config.what_if = false →
      pyTruthy config.apply = false → pyTruthy config.destroy = true →
      dispatch config = .destroyA) ∧
    (pyTruthy config.dry_run = false → pyTruthy config.what_if = false →
      pyTruthy config.apply = false → pyTruthy config.destroy = false →
      dispatch config = .reportOnly) :=
  ⟨fun h1 => by simp [dispatch, h1],
   fun h1 h2 => by simp [dispatch, h1, h2],
   fun h1 h2 h3 => by simp [dispatch, h1, h2, h3],
   fun h1 h2 h3 h4 => by simp [dispatch, h1, h2, h3, h4],
   fun h1 h2 h3 h4 => by simp [dispatch, h1, h2, h3, h4]⟩

/-- Claim C5 witness: with every flag truthy the dry-run path is taken;
with dry-run off and the other three on, the what-if path is taken. -/
theorem dispatch_priority_witness :
    dispatch cfgAllFlags = MainAction.dryRunA ∧
    dispatch cfgWhatIf = MainAction.whatIfA :=
  ⟨(dispatch_priority cfgAllFlags).1 rfl,
   (dispatch_priority cfgWhatIf).2.1 rfl rfl⟩

/-- Claim C6 (amended): whenever main completes it returns 0, and its
result never depends on the tool-probe or file-validation outcomes, so
missing files, unavailable parsers, failed tool probes and validation
failures are advisory; however, resolution or parameter building can raise
an uncaught exception (a non-mapping structured section, or an enabled
resource entry named only by underscores), which ends the process with a
non-zero status instead of returning. -/
theorem main_exit_advisory (args : Args) (env_vars : List (String × String))
    (yaml_config : List (String × PyVal)) (world world2 : World) (fs fs2 : Fs) :
    main args env_vars yaml_config world fs =
      main args env_vars yaml_config world2 fs2 ∧
    (∀ n, main args env_vars yaml_config world fs = some n → n = 0) := by
  constructor
  · unfold main
    cases resolve_config args env_vars yaml_config with
    | none => rfl
    | some config =>
      cases build_infra_params config with
      | none => rfl
      | some p => cases dispatch config <;> rfl
  · intro n h
    unfold main at h
    cases hr : resolve_config args env_vars yaml_config with
    | none =>
      rw [hr] at h
      exact Option.noConfusion h
    | some config =>
      simp only [hr] at h
      cases hb : build_infra_params config with
      | none =>
        simp only [hb] at h
        exact Option.noConfusion h
      | some p =>
        simp only [hb] at h
        cases hd : dispatch config <;>
          simp only [hd, Option.some.injEq] at h <;> omega

/-- Claim C6 as frozen is refuted here: a structured file whose resources
block holds an enabled entry with an empty name makes main raise while
printing the configuration, so the process exits with a non-zero status
rather than returning 0. -/
theorem main_exit_counterexample :
    main noArgs [] badYaml trivWorld trivFs = none := rfl

/-- Claim C6 witness: a completed run returns 0 whatever the probes say. -/
theorem main_exit_witness :
    main noArgs [] [] trivWorld trivFs = some 0 ∧ (0 : Nat) = 0 :=
  ⟨rfl, (main_exit_advisory noArgs [] [] trivWorld trivWorld trivFs trivFs).2 0 rfl⟩

/-- Claim C7 (amended): probing a tool never raises — a missing binary is
degraded to exit status 127 — and availability is recorded as the probed
command exiting zero, with getVersion none on a non-zero status; on a zero
status getVersion returns the first line of the whitespace-stripped
standard output, or none when the stripped output is empty (the raw
standard output may differ from its stripped form, so a leading newline is
not preserved). -/
theorem tool_probe_contract (world : World) (tool : String) (tools : List String)
    (r : CompletedProcess) (ht : tool ∈ tools)
    (hr : r = (if tool == "bicep" then run world ["az", "bicep", "version"]
      else run world [tool, "--version"])) :
    List.lookup tool (require_tools world (some tools)) = some (r.returncode == 0) ∧
    (¬(r.returncode = 0) → get_tool_version world tool = none) ∧
    (r.returncode = 0 → get_tool_version world tool =
      (if pyStrip r.stdout == "" then none
       else some (first_line (pyStrip r.stdout)))) ∧
    (world (if tool == "bicep" then ["az", "bicep", "version"]
      else [tool, "--version"]) = ProcOutcome.fileNotFound →
      r.returncode = 127) := by
  have hg : get_tool_version world tool =
      (if r.returncode == 0 then
        (if pyStrip r.stdout == "" then none
         else some (first_line (pyStrip r.stdout)))
       else none) := by
    rw [hr]; rfl
  refine ⟨?_, ?_, ?_, ?_⟩
  · unfold require_tools
    rw [show (some tools).getD ["az", "azd", "bicep"] = tools from rfl,
      lookup_probe_foldl]
    by_cases hb : tool == "bicep"
    · have hb' : tool = "bicep" := by simpa using hb
      subst hb'
      simp [ht, hr]
    · have hb' : tool ≠ "bicep" := by simpa using hb
      simp [ht, hr, hb']
  · intro h0
    have h1 : (r.returncode == 0) = false := by simpa using h0
    rw [hg, h1]
    rfl
  · intro h0
    have h1 : (r.returncode == 0) = true := by simpa using h0
    rw [hg, h1]
    rfl
  · intro hf
    by_cases hb : tool == "bicep"
    · rw [hr]
      simp only [hb, if_true]
      simp only [hb, if_true] at hf
      simp [run, hf]
    · have hb0 : (tool == "bicep") = false := by simpa using hb
      rw [hr]
      simp only [hb0, Bool.false_eq_true, if_false]
      simp only [hb0, Bool.false_eq_true, if_false] at hf
      simp [run, hf]

/-- Claim C7 as frozen is refuted here: on standard output beginning with
a newline the first line of the raw output is empty, yet getVersion
returns the first line of the stripped output instead. -/
theorem tool_probe_counterexample :
    get_tool_version w7 "az" = some "v2.0" ∧
    some "v2.0" ≠ some (first_line "\nv2.0\n") := by
  refine ⟨rfl, ?_⟩
  intro h
  injection h with h1
  exact absurd h1 (by decide)

/-- Claim C7 witness: a tool whose binary is missing everywhere is
recorded unavailable with no version, without raising. -/
theorem tool_probe_contract_witness :
    List.lookup "azd" (require_tools trivWorld (some ["az", "azd", "bicep"])) =
      some false ∧
    get_tool_version trivWorld "azd" = none := by
  obtain ⟨h1, h2, _, _⟩ := tool_probe_contract trivWorld "azd" ["az", "azd", "bicep"]
    { returncode := 127, stdout := "", stderr := "Command not found: azd" }
    (by simp) rfl
  exact ⟨h1.trans rfl, h2 (by decide)⟩

end Orchestrator
